import Mathlib

/-!
Verification of the SEO-audit application (`src/app.py`): a shallow
embedding of the analyzer, platform detector, fetch logic, auto-fixer and
request handler, together with theorems settling the specification claims.

Strings are modelled as Lean `String`; the few Python string primitives the
code uses (`strip`, `lower`, `startswith`, `replace`, substring test) are
re-implemented below as structurally recursive functions over `List Char`
so that every definition evaluates inside the kernel.
-/

set_option maxRecDepth 8192

namespace SeoAudit

/-! ## Python string primitives -/

/-- Model of Python `str.strip()`: drop whitespace from both ends. -/
def pyStrip (s : String) : String :=
  ⟨((s.data.dropWhile Char.isWhitespace).reverse.dropWhile Char.isWhitespace).reverse⟩

/-- Model of Python `str.lower()` (ASCII letters, which is all the code relies on). -/
def strLower (s : String) : String :=
  ⟨s.data.map Char.toLower⟩

/-- `leadsWith pat l` is true iff `pat` is an initial segment of `l`. -/
def leadsWith : List Char → List Char → Bool
  | [], _ => true
  | _ :: _, [] => false
  | a :: as, b :: bs => a == b && leadsWith as bs

/-- Model of Python `str.startswith(pre)`. -/
def pyStartsWith (s pre : String) : Bool :=
  leadsWith pre.data s.data

/-- `hasSubB pat l` is true iff `pat` occurs as a contiguous segment of `l`
(model of Python `pat in l`). -/
def hasSubB (pat : List Char) : List Char → Bool
  | [] => pat.isEmpty
  | c :: tl => leadsWith pat (c :: tl) || hasSubB pat tl

/-- Model of Python `pat in s` for strings. -/
def pyContains (s pat : String) : Bool :=
  hasSubB pat.data s.data

/-- Fuel-driven worker for `pyReplace`; replaces non-overlapping occurrences
left to right, exactly like Python `str.replace` with a non-empty pattern. -/
def pyReplaceGo (pat rep : List Char) : Nat → List Char → List Char
  | 0, s => s
  | _ + 1, [] => []
  | fuel + 1, c :: cs =>
    if leadsWith pat (c :: cs) then
      rep ++ pyReplaceGo pat rep fuel (List.drop (pat.length - 1) cs)
    else
      c :: pyReplaceGo pat rep fuel cs

/-- Model of Python `s.replace(pat, rep)` for a non-empty pattern: every
non-overlapping occurrence of `pat`, anywhere in `s`, is replaced. -/
def pyReplace (s pat rep : String) : String :=
  ⟨pyReplaceGo pat.data rep.data s.data.length s.data⟩

/-! ## Parsed-document model

`Doc` records exactly what `analyze_website` reads out of the
BeautifulSoup tree (`src/app.py` lines 50-57):
* `titleTag`: `none` if the document has no `<title>` element; otherwise
  `some st` where `st` is the `.string` of that element (`none` when
  BeautifulSoup yields no string, e.g. mixed children; `some s` for text).
* `metaDesc`: likewise for the `<meta name="description">` element and its
  `content` attribute.
* `h1Count`: number of `<h1>` elements.
* `imgAlts`: the `alt` attribute of each `<img>` (`none` = attribute absent).
* `linkCount`: number of `<a>` elements carrying an `href` attribute.
* `hasViewport` / `hasLdJson`: presence of the viewport meta element and of a
  `<script type="application/ld+json">` element. -/
structure Doc where
  titleTag : Option (Option String)
  metaDesc : Option (Option String)
  h1Count : Nat
  imgAlts : List (Option String)
  linkCount : Nat
  hasViewport : Bool
  hasLdJson : Bool
deriving Repr, DecidableEq

/-- Line 50: `title = soup.title.string.strip() if soup.title and soup.title.string
else "No title found"`.  A present but empty string is falsy in Python. -/
def titleOf (d : Doc) : String :=
  match d.titleTag with
  | some (some s) => if s = "" then "No title found" else pyStrip s
  | _ => "No title found"

/-- Lines 51-52: the meta-description extraction with the
`"No meta description found"` sentinel. -/
def metaDescOf (d : Doc) : String :=
  match d.metaDesc with
  | some (some s) => if s = "" then "No meta description found" else pyStrip s
  | _ => "No meta description found"

/-- Line 57: `missing_alt = sum(1 for img in images if not img.get("alt"))`;
an absent attribute and an empty string are both falsy. -/
def missingAltCount (d : Doc) : Nat :=
  (d.imgAlts.filter (fun a => a.getD "" = "")).length

/-! ## Analyzer -/

/-- The running (score, issues, fixes) triple threaded through the checklist. -/
structure Tally where
  score : Int
  issues : List String
  fixes : List String
deriving Repr, DecidableEq

/-- One checklist item (`if cond: score -= 10; issues.append(i); fixes.append(f)`). -/
def chk (P : Prop) [Decidable P] (issue fix : String) (t : Tally) : Tally :=
  if P then { score := t.score - 10, issues := t.issues ++ [issue], fixes := t.fixes ++ [fix] }
  else t

/-- Single-quote character, used in one of the fix strings. -/
def sq : String := String.singleton (Char.ofNat 39)

/-- Result dictionary returned by `analyze_website` on success
(lines 116-128; the floating-point `load_time` field is omitted). -/
structure ScanResult where
  url : String
  title : String
  meta_desc : String
  h1_count : Nat
  missing_alt : Nat
  link_count : Nat
  seo_score : Int
  report : List String
  fixes : List String
  platform : String
deriving Repr, DecidableEq

/-- Lines 101-112: platform detection by first matching substring of the
lower-cased raw markup. -/
def detectPlatform (text : String) : String :=
  let html := strLower text
  if pyContains html "wordpress" then "WordPress"
  else if pyContains html "shopify" then "Shopify"
  else if pyContains html "wix" then "Wix"
  else if pyContains html "squarespace" then "Squarespace"
  else "Custom/Static site"

/-- Lines 47-128 of `analyze_website` after a successful fetch: the pure
analysis of the response text and parsed document. `url` is the (possibly
downgraded) URL, `text` is `response.text`, `d` the parsed tree. -/
def analyze_document (url text : String) (d : Doc) : ScanResult :=
  let title := titleOf d
  let meta_desc := metaDescOf d
  let missing_alt := missingAltCount d
  let t0 : Tally := ⟨100, [], []⟩
  let t1 := chk (title = "No title found") "Missing title tag"
    "Add a descriptive <title> tag with keywords." t0
  let t2 := chk (meta_desc = "No meta description found") "Missing meta description"
    ("Include a <meta name=" ++ sq ++ "description" ++ sq ++ "> tag.") t1
  let t3 := chk (d.h1Count = 0) "No H1 tag found" "Add a main <h1> heading." t2
  let t4 := chk (5 < missing_alt) "Many images missing alt attributes"
    "Add descriptive alt text for all images." t3
  let t5 := chk (d.linkCount < 5) "Not enough internal/external links"
    "Add more internal/external links to enhance navigation." t4
  let t6 := chk (text.length < 500) "Page content too short"
    "Add more keyword-rich and valuable content." t5
  let t7 := chk (d.hasViewport = false) "Not mobile-friendly"
    "Add a responsive viewport meta tag for mobile support." t6
  let t8 := chk (d.hasLdJson = false) "No structured data found"
    "Add JSON-LD structured data from schema.org." t7
  { url := url
    title := title
    meta_desc := meta_desc
    h1_count := d.h1Count
    missing_alt := missing_alt
    link_count := d.linkCount
    seo_score := max 0 (min 100 t8.score)
    report := t8.issues
    fixes := t8.fixes
    platform := detectPlatform text }

/-! ## Auto-fixer model

`generate_fixed_page` (lines 134-174) parses the raw markup again and
mutates the tree.  `FPage` models the parse tree at the granularity the
fixer reads and writes: the child list of `<head>` (if a head element
exists), the child list of `<body>` (if one exists), and any elements
outside both (html.parser does not synthesize missing head/body). -/
inductive Elem where
  | titleE (s : String)
  | metaDescription (content : String)
  | metaViewport (content : String)
  | scriptLdJson (s : String)
  | img (alt : Option String)
  | h1 (s : String)
  | other (tag : String)
deriving Repr, DecidableEq

structure FPage where
  head : Option (List Elem)
  body : Option (List Elem)
  rest : List Elem
deriving Repr, DecidableEq

/-- All elements of the document, for the tree-wide `soup.find` / `find_all`. -/
def allElems (p : FPage) : List Elem :=
  p.head.getD [] ++ p.body.getD [] ++ p.rest

def isTitleEl : Elem → Bool
  | .titleE _ => true
  | _ => false

def isMetaDescEl : Elem → Bool
  | .metaDescription _ => true
  | _ => false

def isViewportEl : Elem → Bool
  | .metaViewport _ => true
  | _ => false

def isLdJsonEl : Elem → Bool
  | .scriptLdJson _ => true
  | _ => false

def isH1El : Elem → Bool
  | .h1 _ => true
  | _ => false

/-- Lines 139-142: insert a placeholder `<title>` at position 0 of the head
when no title exists anywhere; `soup.head` is `None` when the document has
no head element, and `None.insert` raises `AttributeError`. -/
def fixTitle (p : FPage) : Except String FPage :=
  if (allElems p).any isTitleEl then .ok p
  else
    match p.head with
    | none => .error "AttributeError: NoneType object has no attribute insert"
    | some hs => .ok { p with head := some (Elem.titleE "AI Optimized Page" :: hs) }

/-- Lines 144-146: append a placeholder meta description to the head. -/
def fixMetaDesc (p : FPage) : Except String FPage :=
  if (allElems p).any isMetaDescEl then .ok p
  else
    match p.head with
    | none => .error "AttributeError: NoneType object has no attribute append"
    | some hs =>
      .ok { p with head := some (hs ++ [Elem.metaDescription "AI optimized meta description."]) }

/-- Lines 148-150: append a responsive viewport meta tag to the head. -/
def fixViewport (p : FPage) : Except String FPage :=
  if (allElems p).any isViewportEl then .ok p
  else
    match p.head with
    | none => .error "AttributeError: NoneType object has no attribute append"
    | some hs =>
      .ok { p with head := some (hs ++ [Elem.metaViewport "width=device-width, initial-scale=1.0"]) }

/-- The JSON-LD payload interpolated with the page URL (lines 154-159). -/
def schemaText (url : String) : String :=
  "\x7b\n            \"@context\": \"https://schema.org\",\n            \"@type\": \"WebSite\",\n            \"name\": \"Smart SEO Auditor\",\n            \"url\": \"" ++ url ++ "\"\n        \x7d"

/-- Lines 152-160: append a minimal structured-data script to the head. -/
def fixSchema (url : String) (p : FPage) : Except String FPage :=
  if (allElems p).any isLdJsonEl then .ok p
  else
    match p.head with
    | none => .error "AttributeError: NoneType object has no attribute append"
    | some hs => .ok { p with head := some (hs ++ [Elem.scriptLdJson (schemaText url)]) }

/-- Lines 162-164: give every image with a falsy `alt` a placeholder description. -/
def fixImg : Elem → Elem
  | .img alt => if alt.getD "" = "" then .img (some "AI added image description") else .img alt
  | e => e

def fixAlts (p : FPage) : FPage :=
  { head := p.head.map (List.map fixImg)
    body := p.body.map (List.map fixImg)
    rest := p.rest.map fixImg }

/-- Lines 166-169: insert a placeholder `<h1>` at position 0 of the body when
no h1 exists; `soup.body` is `None` when the document has no body element. -/
def fixH1 (p : FPage) : Except String FPage :=
  if (allElems p).any isH1El then .ok p
  else
    match p.body with
    | none => .error "AttributeError: NoneType object has no attribute insert"
    | some bs => .ok { p with body := some (Elem.h1 "AI Generated Heading for SEO Improvement" :: bs) }

/-- Lines 134-174: the auto-fixer.  On success it returns the corrected
document together with the file path the serialized markup is written to;
an `AttributeError` raised by a missing head/body propagates as `.error`. -/
def generate_fixed_page (url : String) (html : FPage) : Except String (FPage × String) := do
  let p1 ← fixTitle html
  let p2 ← fixMetaDesc p1
  let p3 ← fixViewport p2
  let p4 ← fixSchema url p3
  let p5 := fixAlts p4
  let p6 ← fixH1 p5
  .ok (p6, "fixed_sites/corrected_page.html")

/-! ## Fetch layer and request handler

Network access is modelled by an oracle `net : Nat → String → GetReply`
giving the reply to the `i`-th `requests.get` of the request (indexed by the
number of calls made so far), and every function threads the list of URLs
requested so far, so that "no fetch occurred" and "exactly one retry" are
statable.  A successful reply carries the body text together with its parse
results (the parser is an external library, so its output is part of the
oracle). -/
inductive GetReply where
  | ok (text : String) (doc : Doc) (fpage : FPage)
  | sslError (msg : String)
  | connError (msg : String)
  | otherError (msg : String)
deriving Repr

/-- One `requests.get(url, ...)` call: consults the oracle and records the URL. -/
def requestsGet (net : Nat → String → GetReply) (calls : List String) (url : String) :
    GetReply × List String :=
  (net calls.length url, calls ++ [url])

/-- Outcome of `analyze_website`: the success dictionary or the
`{"error": str(e)}` dictionary produced by the outer `except` (line 131). -/
inductive AnalyzeOutcome where
  | ok (r : ScanResult)
  | err (msg : String)
deriving Repr, DecidableEq

/-- Lines 27-131: `analyze_website`.  The inner `try` issues the GET; on
`SSLError` with an `https://` URL it downgrades via `url.replace` and retries
once (any failure of the retry, and the re-raised `SSLError` on a non-https
URL, reach the outer `except` as the error dictionary); `ConnectionError` is
replaced by a descriptive message; everything else keeps its own message. -/
def analyze_website (net : Nat → String → GetReply) (calls : List String) (url : String) :
    AnalyzeOutcome × List String :=
  let (r0, calls1) := requestsGet net calls url
  match r0 with
  | .ok text doc _ => (.ok (analyze_document url text doc), calls1)
  | .sslError msg =>
    if pyStartsWith url "https://" then
      let url2 := pyReplace url "https://" "http://"
      let (r1, calls2) := requestsGet net calls1 url2
      match r1 with
      | .ok text doc _ => (.ok (analyze_document url2 text doc), calls2)
      | .sslError m2 => (.err m2, calls2)
      | .connError m2 => (.err m2, calls2)
      | .otherError m2 => (.err m2, calls2)
    else
      (.err msg, calls1)
  | .connError _ =>
    (.err "Failed to connect to the website. It may be offline or blocking requests.", calls1)
  | .otherError msg => (.err msg, calls1)

/-- What `home` renders into the template for a POST. -/
inductive HomeResult where
  | err (msg : String)
  | ok (scan : ScanResult) (ownershipMsg : String) (fixedPath : Option String)
deriving Repr, DecidableEq

/-- Outcome of one POST request: either a rendered page, or an exception
escaping the handler (Flask then produces a server error, not the template). -/
inductive HomeOutcome where
  | rendered (result : HomeResult)
  | unhandled (msg : String)
deriving Repr, DecidableEq

/-- Lines 177-205: the POST branch of `home`.  The URL is stripped, the
scheme prefix validated, `analyze_website` called; on success the history
insert happens (modelled as a no-op) and, when ownership is asserted, a
second, unguarded `requests.get` plus `generate_fixed_page` run — any
failure there escapes the handler. -/
def homePost (net : Nat → String → GetReply) (rawUrl ownership : String) :
    HomeOutcome × List String :=
  let url := pyStrip rawUrl
  if !(pyStartsWith url "http://" || pyStartsWith url "https://") then
    (.rendered (.err "Please enter a valid URL starting with http or https."), [])
  else
    let (out, calls1) := analyze_website net [] url
    match out with
    | .err m => (.rendered (.err m), calls1)
    | .ok r =>
      if strLower ownership = "yes" then
        let (r2, calls2) := requestsGet net calls1 url
        match r2 with
        | .ok _ _ fpage =>
          match generate_fixed_page url fpage with
          | .ok (_, path) =>
            (.rendered (.ok r "You own this site. AI auto-fix applied." (some path)), calls2)
          | .error m => (.unhandled m, calls2)
        | .sslError m => (.unhandled m, calls2)
        | .connError m => (.unhandled m, calls2)
        | .otherError m => (.unhandled m, calls2)
      else
        (.rendered (.ok r "You do not own this site. Only suggestions shown." none), calls1)

/-! ## Helper lemmas -/

/-- Membership in the issue list after one checklist item. -/
theorem mem_chk (P : Prop) [Decidable P] (i f a : String) (t : Tally) :
    a ∈ (chk P i f t).issues ↔ (P ∧ a = i) ∨ a ∈ t.issues := by
  unfold chk
  split
  next h => simp [List.mem_append, h, or_comm]
  next h => simp [h]

/-- A triggered checklist item deducts 10 and appends its issue and fix. -/
theorem chk_of_pos (P : Prop) [Decidable P] (h : P) (issue fix : String) (t : Tally) :
    chk P issue fix t = ⟨t.score - 10, t.issues ++ [issue], t.fixes ++ [fix]⟩ :=
  if_pos h

/-- An untriggered checklist item leaves the tally unchanged. -/
theorem chk_of_neg (P : Prop) [Decidable P] (h : ¬P) (issue fix : String) (t : Tally) :
    chk P issue fix t = t :=
  if_neg h

/-- Each checklist item preserves the tally invariants: the score is 100 minus
10 per recorded issue, and issues and fixes stay parallel. -/
theorem chk_inv (P : Prop) [Decidable P] (issue fix : String) (t : Tally)
    (h1 : t.score = 100 - 10 * (t.issues.length : Int))
    (h2 : t.issues.length = t.fixes.length) :
    (chk P issue fix t).score = 100 - 10 * ((chk P issue fix t).issues.length : Int) ∧
    (chk P issue fix t).issues.length = (chk P issue fix t).fixes.length := by
  unfold chk
  split
  · constructor
    · simp only [List.length_append, List.length_cons, List.length_nil]
      omega
    · simp [List.length_append, h2]
  · exact ⟨h1, h2⟩

/-- The tally invariants hold after the full eight-item checklist. -/
theorem chk8_inv (P1 P2 P3 P4 P5 P6 P7 P8 : Prop)
    [Decidable P1] [Decidable P2] [Decidable P3] [Decidable P4]
    [Decidable P5] [Decidable P6] [Decidable P7] [Decidable P8]
    (i1 f1 i2 f2 i3 f3 i4 f4 i5 f5 i6 f6 i7 f7 i8 f8 : String) (t : Tally)
    (ht : t = chk P8 i8 f8 (chk P7 i7 f7 (chk P6 i6 f6 (chk P5 i5 f5 (chk P4 i4 f4
      (chk P3 i3 f3 (chk P2 i2 f2 (chk P1 i1 f1 ⟨100, [], []⟩)))))))) :
    t.score = 100 - 10 * (t.issues.length : Int) ∧ t.issues.length = t.fixes.length := by
  subst ht
  have h1 := chk_inv P1 i1 f1 ⟨100, [], []⟩ (by simp) rfl
  have h2 := chk_inv P2 i2 f2 _ h1.1 h1.2
  have h3 := chk_inv P3 i3 f3 _ h2.1 h2.2
  have h4 := chk_inv P4 i4 f4 _ h3.1 h3.2
  have h5 := chk_inv P5 i5 f5 _ h4.1 h4.2
  have h6 := chk_inv P6 i6 f6 _ h5.1 h5.2
  have h7 := chk_inv P7 i7 f7 _ h6.1 h6.2
  exact chk_inv P8 i8 f8 _ h7.1 h7.2

/-- The clamp `max 0 (min 100 x)` always lands in `[0, 100]`. -/
theorem clamp_bounds (x : Int) : 0 ≤ max 0 (min 100 x) ∧ max 0 (min 100 x) ≤ 100 := by
  constructor <;> omega

/-- The title extraction yields the sentinel exactly when the title element is
absent, its string is absent or empty, or the stripped text is literally the
sentinel. -/
theorem titleOf_eq_sentinel_iff (d : Doc) :
    titleOf d = "No title found" ↔
      (d.titleTag = none ∨ d.titleTag = some none ∨ d.titleTag = some (some "") ∨
       ∃ s, d.titleTag = some (some s) ∧ s ≠ "" ∧ pyStrip s = "No title found") := by
  unfold titleOf
  match h : d.titleTag with
  | none => simp [h]
  | some none => simp [h]
  | some (some s) =>
    by_cases hs : s = "" <;> simp [h, hs]

/-! ## Concrete fixtures -/

/-- A parsed document failing every checklist item. -/
def docAllFail : Doc :=
  ⟨none, none, 0, [none, none, none, none, none, none], 0, false, false⟩

/-- A parsed document passing every checklist item. -/
def docAllPass : Doc :=
  ⟨some (some "My Site"), some (some "A fine description."), 1, [some "logo"], 5, true, true⟩

/-- A document whose title element literally reads `No title found`. -/
def docSentinelTitle : Doc :=
  ⟨some (some "No title found"), some (some "A fine description."), 1, [some "logo"], 5, true, true⟩

/-- A 500-character response body. -/
def longText : String := ⟨List.replicate 500 (Char.ofNat 97)⟩

/-- The eight issue strings in checklist order. -/
def allIssues : List String :=
  ["Missing title tag", "Missing meta description", "No H1 tag found",
   "Many images missing alt attributes", "Not enough internal/external links",
   "Page content too short", "Not mobile-friendly", "No structured data found"]

/-! ## Claim theorems -/

/-- Claim C5 (confirmed): for every analyzed document the issue and fix lists
have equal length, and the score equals `clamp(100 - 10 * triggeredCount, 0, 100)`
where `triggeredCount` is the number of issues, hence lies in `[0, 100]`. -/
theorem c5_score_clamp_and_parallel (url text : String) (d : Doc) :
    (analyze_document url text d).report.length = (analyze_document url text d).fixes.length ∧
    (analyze_document url text d).seo_score =
      max 0 (min 100 (100 - 10 * ((analyze_document url text d).report.length : Int))) ∧
    0 ≤ (analyze_document url text d).seo_score ∧
    (analyze_document url text d).seo_score ≤ 100 := by
  have key := chk8_inv (titleOf d = "No title found")
    (metaDescOf d = "No meta description found")
    (d.h1Count = 0) (5 < missingAltCount d) (d.linkCount < 5) (text.length < 500)
    (d.hasViewport = false) (d.hasLdJson = false)
    "Missing title tag" "Add a descriptive <title> tag with keywords."
    "Missing meta description" ("Include a <meta name=" ++ sq ++ "description" ++ sq ++ "> tag.")
    "No H1 tag found" "Add a main <h1> heading."
    "Many images missing alt attributes" "Add descriptive alt text for all images."
    "Not enough internal/external links" "Add more internal/external links to enhance navigation."
    "Page content too short" "Add more keyword-rich and valuable content."
    "Not mobile-friendly" "Add a responsive viewport meta tag for mobile support."
    "No structured data found" "Add JSON-LD structured data from schema.org."
    _ rfl
  simp only [analyze_document]
  refine ⟨key.2, ?_, (clamp_bounds _).1, (clamp_bounds _).2⟩
  rw [key.1]

/-- Claim C1 counterexample: a document failing all eight checks yields score
20 (eight deductions of 10 from 100, clamped), not 0 as the claim states,
while the issues list does contain all eight entries. -/
theorem c1_counterexample :
    (analyze_document "http://e.com" "short" docAllFail).report = allIssues ∧
    (analyze_document "http://e.com" "short" docAllFail).seo_score = 20 ∧
    (analyze_document "http://e.com" "short" docAllFail).seo_score ≠ 0 := by
  decide

/-- Claim C1 (amended): a fetched document missing title, meta description,
H1, viewport and structured data, with fewer than 5 href-carrying anchors,
under 500 body characters and more than 5 alt-less images scores 20
(= clamp(100 - 10*8)) with all eight issues reported. -/
theorem c1_all_fail (url text : String) (d : Doc)
    (h1 : d.titleTag = none) (h2 : d.metaDesc = none) (h3 : d.h1Count = 0)
    (h4 : 5 < missingAltCount d) (h5 : d.linkCount < 5) (h6 : text.length < 500)
    (h7 : d.hasViewport = false) (h8 : d.hasLdJson = false) :
    (analyze_document url text d).report = allIssues ∧
    (analyze_document url text d).seo_score = 20 := by
  have e1 : titleOf d = "No title found" := by simp [titleOf, h1]
  have e2 : metaDescOf d = "No meta description found" := by simp [metaDescOf, h2]
  simp only [analyze_document]
  rw [chk_of_pos _ e1, chk_of_pos _ e2, chk_of_pos _ h3, chk_of_pos _ h4,
    chk_of_pos _ h5, chk_of_pos _ h6, chk_of_pos _ h7, chk_of_pos _ h8]
  exact ⟨by decide, by decide⟩

/-- Witness for `c1_all_fail` at a concrete all-failing document. -/
theorem c1_all_fail_witness :
    (analyze_document "http://e.com" "short" docAllFail).report = allIssues ∧
    (analyze_document "http://e.com" "short" docAllFail).seo_score = 20 :=
  c1_all_fail "http://e.com" "short" docAllFail rfl rfl rfl (by decide) (by decide)
    (by decide) rfl rfl

/-- Claim C2 counterexample: a document whose title element is the non-empty
literal text `No title found` is still flagged `Missing title tag`. -/
theorem c2_counterexample :
    docSentinelTitle.titleTag = some (some "No title found") ∧
    "No title found" ≠ "" ∧
    "Missing title tag" ∈ (analyze_document "http://e.com" "x" docSentinelTitle).report := by
  decide

/-- Claim C2 (amended): the issue `Missing title tag` is reported exactly when
the document has no title element, or the title string is absent or empty, or
the stripped title text equals the literal sentinel `No title found`. -/
theorem c2_title_flag_iff (url text : String) (d : Doc) :
    "Missing title tag" ∈ (analyze_document url text d).report ↔
      (d.titleTag = none ∨ d.titleTag = some none ∨ d.titleTag = some (some "") ∨
       ∃ s, d.titleTag = some (some s) ∧ s ≠ "" ∧ pyStrip s = "No title found") := by
  rw [← titleOf_eq_sentinel_iff]
  simp only [analyze_document]
  simp [mem_chk]

/-- Witness for `c2_title_flag_iff` at a concrete title-less document. -/
theorem c2_title_flag_iff_witness :
    "Missing title tag" ∈ (analyze_document "http://e.com" "x" docAllFail).report :=
  (c2_title_flag_iff "http://e.com" "x" docAllFail).mpr (Or.inl rfl)

/-- Claim C8 counterexample: a document satisfying every check as the claim
words them (non-empty title, non-empty meta description, an H1, viewport,
structured data, 5 links, 500 characters, no alt-less images) whose title text
is the literal `No title found` scores 90 with a non-empty issues list. -/
theorem c8_counterexample :
    docSentinelTitle.titleTag = some (some "No title found") ∧
    "No title found" ≠ "" ∧
    0 < docSentinelTitle.h1Count ∧
    docSentinelTitle.hasViewport = true ∧
    docSentinelTitle.hasLdJson = true ∧
    5 ≤ docSentinelTitle.linkCount ∧
    500 ≤ longText.length ∧
    missingAltCount docSentinelTitle ≤ 5 ∧
    (analyze_document "http://e.com" longText docSentinelTitle).seo_score = 90 ∧
    (analyze_document "http://e.com" longText docSentinelTitle).report = ["Missing title tag"] := by
  decide

/-- Claim C8 (amended): a fetched document with a non-empty title whose
stripped text is not the literal `No title found`, a non-empty meta
description whose stripped content is not the literal
`No meta description found`, at least one H1, a viewport meta element, a
structured-data script, at least 5 href-carrying anchors, at least 500 body
characters and at most 5 alt-less images scores 100 with no issues. -/
theorem c8_all_pass (url text : String) (d : Doc) (s c : String)
    (ht : d.titleTag = some (some s)) (hs : s ≠ "") (hsn : pyStrip s ≠ "No title found")
    (hm : d.metaDesc = some (some c)) (hc : c ≠ "")
    (hcn : pyStrip c ≠ "No meta description found")
    (hh : d.h1Count ≠ 0) (ha : missingAltCount d ≤ 5) (hl : 5 ≤ d.linkCount)
    (hlen : 500 ≤ text.length) (hv : d.hasViewport = true) (hj : d.hasLdJson = true) :
    (analyze_document url text d).report = [] ∧
    (analyze_document url text d).seo_score = 100 := by
  have e1 : ¬(titleOf d = "No title found") := by
    simpa [titleOf, ht, hs] using hsn
  have e2 : ¬(metaDescOf d = "No meta description found") := by
    simpa [metaDescOf, hm, hc] using hcn
  have e4 : ¬(5 < missingAltCount d) := by omega
  have e5 : ¬(d.linkCount < 5) := by omega
  have e6 : ¬(text.length < 500) := by omega
  have e7 : ¬(d.hasViewport = false) := by simp [hv]
  have e8 : ¬(d.hasLdJson = false) := by simp [hj]
  simp only [analyze_document]
  rw [chk_of_neg _ e1, chk_of_neg _ e2, chk_of_neg _ hh, chk_of_neg _ e4,
    chk_of_neg _ e5, chk_of_neg _ e6, chk_of_neg _ e7, chk_of_neg _ e8]
  exact ⟨rfl, rfl⟩

/-- Witness for `c8_all_pass` at a concrete fully-compliant document. -/
theorem c8_all_pass_witness :
    (analyze_document "http://e.com" longText docAllPass).report = [] ∧
    (analyze_document "http://e.com" longText docAllPass).seo_score = 100 :=
  c8_all_pass "http://e.com" longText docAllPass "My Site" "A fine description."
    rfl (by decide) (by decide) rfl (by decide) (by decide) (by decide) (by decide)
    (by decide) (by decide) rfl rfl

/-- Claim C6 (confirmed): the platform detector lower-cases the markup and
returns the first matching signature in the order
wordpress, shopify, wix, squarespace, falling back to the Custom platform
(rendered as the string `Custom/Static site`). -/
theorem c6_platform_detection (text : String) :
    (pyContains (strLower text) "wordpress" = true →
       detectPlatform text = "WordPress") ∧
    (pyContains (strLower text) "wordpress" = false →
     pyContains (strLower text) "shopify" = true →
       detectPlatform text = "Shopify") ∧
    (pyContains (strLower text) "wordpress" = false →
     pyContains (strLower text) "shopify" = false →
     pyContains (strLower text) "wix" = true →
       detectPlatform text = "Wix") ∧
    (pyContains (strLower text) "wordpress" = false →
     pyContains (strLower text) "shopify" = false →
     pyContains (strLower text) "wix" = false →
     pyContains (strLower text) "squarespace" = true →
       detectPlatform text = "Squarespace") ∧
    (pyContains (strLower text) "wordpress" = false →
     pyContains (strLower text) "shopify" = false →
     pyContains (strLower text) "wix" = false →
     pyContains (strLower text) "squarespace" = false →
       detectPlatform text = "Custom/Static site") := by
  unfold detectPlatform
  refine ⟨fun h1 => by simp [h1],
    fun h1 h2 => by simp [h1, h2],
    fun h1 h2 h3 => by simp [h1, h2, h3],
    fun h1 h2 h3 h4 => by simp [h1, h2, h3, h4],
    fun h1 h2 h3 h4 => by simp [h1, h2, h3, h4]⟩

/-- Witness for `c6_platform_detection`: mixed-case Shopify markup without a
WordPress signature, and markup with no signature at all. -/
theorem c6_platform_detection_witness :
    detectPlatform "Buy at my ShOpIfY store" = "Shopify" ∧
    detectPlatform "a plain page" = "Custom/Static site" :=
  ⟨(c6_platform_detection "Buy at my ShOpIfY store").2.1 (by decide) (by decide),
   (c6_platform_detection "a plain page").2.2.2.2 (by decide) (by decide) (by decide) (by decide)⟩

/-! ## Fetch-layer claims -/

/-- A network in which every request fails transport-security negotiation. -/
def netSslAlways : Nat → String → GetReply :=
  fun _ _ => GetReply.sslError "certificate verify failed"

/-- Claim C4 counterexample: on an https URL that mentions `https://` again in
its query string, the retry goes to the URL with BOTH occurrences rewritten
(Python `str.replace` replaces every occurrence), not to the equivalent URL
with only the scheme replaced. -/
theorem c4_counterexample :
    (analyze_website netSslAlways [] "https://a.com/?next=https://b.com").2 =
      ["https://a.com/?next=https://b.com", "http://a.com/?next=http://b.com"] ∧
    "http://a.com/?next=http://b.com" ≠ "http://a.com/?next=https://b.com" := by
  decide

/-- Claim C4 (amended): an SSL failure on a URL starting with `https://`
triggers exactly one retry, against the URL with every occurrence of
`https://` replaced by `http://` (the scheme-replaced equivalent whenever
`https://` occurs only as the prefix); on a URL not starting with `https://`
there is no retry and the original SSL error message is reported. -/
theorem c4_ssl_downgrade (net : Nat → String → GetReply) (url msg : String)
    (h : net 0 url = GetReply.sslError msg) :
    (pyStartsWith url "https://" = true →
       (analyze_website net [] url).2 = [url, pyReplace url "https://" "http://"]) ∧
    (pyStartsWith url "https://" = false →
       (analyze_website net [] url).2 = [url] ∧
       (analyze_website net [] url).1 = AnalyzeOutcome.err msg) := by
  constructor
  · intro hs
    cases h2 : net 1 (pyReplace url "https://" "http://") <;>
      simp [analyze_website, requestsGet, h, hs, h2]
  · intro hs
    simp [analyze_website, requestsGet, h, hs]

/-- Witness for `c4_ssl_downgrade`: one https URL retried exactly once on the
downgraded URL, one http URL not retried. -/
theorem c4_ssl_downgrade_witness :
    (analyze_website netSslAlways [] "https://x.com").2 = ["https://x.com", "http://x.com"] ∧
    (analyze_website netSslAlways [] "http://x.com").2 = ["http://x.com"] ∧
    (analyze_website netSslAlways [] "http://x.com").1 =
      AnalyzeOutcome.err "certificate verify failed" := by
  refine ⟨?_, ?_, ?_⟩
  · have h := (c4_ssl_downgrade netSslAlways "https://x.com" "certificate verify failed" rfl).1
      (by decide)
    exact h.trans (by decide)
  · exact ((c4_ssl_downgrade netSslAlways "http://x.com" "certificate verify failed" rfl).2
      (by decide)).1
  · exact ((c4_ssl_downgrade netSslAlways "http://x.com" "certificate verify failed" rfl).2
      (by decide)).2

/-! ## Request-handler claims -/

/-- Claim C7 (confirmed): a POST whose stripped URL starts with neither
`http://` nor `https://` is answered with the validation error message and no
network request is issued. -/
theorem c7_invalid_url_no_fetch (net : Nat → String → GetReply) (rawUrl ownership : String)
    (h1 : pyStartsWith (pyStrip rawUrl) "http://" = false)
    (h2 : pyStartsWith (pyStrip rawUrl) "https://" = false) :
    homePost net rawUrl ownership =
      (.rendered (.err "Please enter a valid URL starting with http or https."), []) := by
  simp [homePost, h1, h2]

/-- Witness for `c7_invalid_url_no_fetch` at the spec example `example.com`. -/
theorem c7_invalid_url_no_fetch_witness :
    homePost (fun _ _ => GetReply.connError "refused") "example.com" "no" =
      (.rendered (.err "Please enter a valid URL starting with http or https."), []) :=
  c7_invalid_url_no_fetch (fun _ _ => GetReply.connError "refused") "example.com" "no"
    (by decide) (by decide)

/-- A small compliant parse result for the first fetch of a request. -/
def docSimple : Doc := ⟨some (some "Hi"), none, 1, [], 0, false, false⟩

def fpageSimple : FPage := ⟨some [], some [], []⟩

/-- A network whose first request succeeds and whose second request raises a
connection error. -/
def netOkThenConnError : Nat → String → GetReply :=
  fun i _ =>
    if i = 0 then GetReply.ok "hello" docSimple fpageSimple
    else GetReply.connError "connection refused"

/-- Claim C3: the second, unguarded `requests.get` of the ownership-asserted
auto-fix path (line 198) is outside every try/except, so a fetch failure
there escapes the request handler instead of being converted to an error
object: with ownership asserted and the re-fetch failing, `home` raises. -/
theorem c3_autofix_fetch_escapes :
    (homePost netOkThenConnError "http://example.com" "yes").1 =
      HomeOutcome.unhandled "connection refused" ∧
    (homePost netOkThenConnError "http://example.com" "yes").2 =
      ["http://example.com", "http://example.com"] := by
  decide

/-! ## Auto-fixer claims -/

/-- An image element with a non-empty alt attribute (all non-image elements
trivially qualify). -/
def imgOk : Elem → Bool
  | .img a => !(a.getD "" == "")
  | _ => true

/-- `fixImg` leaves each alt-compliant element alone. -/
theorem fixImg_of_ok (e : Elem) (h : imgOk e = true) : fixImg e = e := by
  cases e <;> simp_all [fixImg, imgOk]

/-- Mapping `fixImg` over an alt-compliant element list is the identity. -/
theorem mapFix_of_ok (l : List Elem) (h : l.all imgOk = true) : l.map fixImg = l := by
  induction l with
  | nil => rfl
  | cons e tl ih =>
    simp only [List.all_cons, Bool.and_eq_true] at h
    simp [fixImg_of_ok e h.1, ih h.2]

/-- The alt-fixing pass is the identity on an alt-compliant page. -/
theorem fixAlts_of_ok (p : FPage) (h : (allElems p).all imgOk = true) : fixAlts p = p := by
  obtain ⟨h0, b0, r0⟩ := p
  simp only [allElems, List.all_append, Bool.and_eq_true] at h
  cases h0 <;> cases b0 <;> simp_all [fixAlts, mapFix_of_ok]

/-- Claim C9 (confirmed): on a document that already has a title, a meta
description, a viewport meta tag, a structured-data script, an H1 and
non-empty alt text on every image, the auto-fixer changes nothing and just
returns the document with the output path. -/
theorem c9_fixer_noop_on_compliant (url : String) (p : FPage)
    (ht : (allElems p).any isTitleEl = true)
    (hm : (allElems p).any isMetaDescEl = true)
    (hv : (allElems p).any isViewportEl = true)
    (hj : (allElems p).any isLdJsonEl = true)
    (hh : (allElems p).any isH1El = true)
    (ha : (allElems p).all imgOk = true) :
    generate_fixed_page url p = .ok (p, "fixed_sites/corrected_page.html") := by
  simp only [List.any_eq_true] at ht hm hv hj hh
  simp [generate_fixed_page, fixTitle, fixMetaDesc, fixViewport, fixSchema, fixH1,
    ht, hm, hv, hj, hh, fixAlts_of_ok p ha, Bind.bind, Except.bind]

/-- A fully compliant page for the `c9` witness. -/
def pageCompliant : FPage :=
  ⟨some [Elem.titleE "Home", Elem.metaDescription "desc",
         Elem.metaViewport "width=device-width", Elem.scriptLdJson "data"],
   some [Elem.h1 "Welcome", Elem.img (some "logo")], []⟩

/-- Witness for `c9_fixer_noop_on_compliant` at a concrete compliant page. -/
theorem c9_fixer_noop_witness :
    generate_fixed_page "http://e.com" pageCompliant =
      .ok (pageCompliant, "fixed_sites/corrected_page.html") :=
  c9_fixer_noop_on_compliant "http://e.com" pageCompliant
    (by decide) (by decide) (by decide) (by decide) (by decide) (by decide)

/-- Markup with neither head nor body (html.parser does not synthesize them);
the title insertion is triggered and dereferences the missing head. -/
def pageNoHead : FPage := ⟨none, none, [Elem.other "p"]⟩

/-- A page with a fully compliant head but no body element and no h1, so the
h1 insertion dereferences the missing body. -/
def pageNoBody : FPage :=
  ⟨some [Elem.titleE "T", Elem.metaDescription "d", Elem.metaViewport "v",
         Elem.scriptLdJson "s"], none, []⟩

/-- Claim C10 (confirmed): when the parse tree has no head element and a head
insertion is triggered, or no body element and the H1 insertion is triggered,
`generate_fixed_page` raises (`AttributeError` on `None`) instead of
returning a file path. -/
theorem c10_fixer_raises_without_head_or_body :
    generate_fixed_page "http://e.com" pageNoHead =
      .error "AttributeError: NoneType object has no attribute insert" ∧
    generate_fixed_page "http://e.com" pageNoBody =
      .error "AttributeError: NoneType object has no attribute insert" :=
  ⟨rfl, rfl⟩

end SeoAudit
